import Mathlib

/-!
Shallow embedding of the media-streaming worker (`handleFileStream` /
`handleRangeRequest`) of the celebrity-api repository.

JavaScript numbers that can become `NaN` (via `parseInt` on an empty
regex group) are modelled as `Option Int`, `none` standing for `NaN`:
every comparison with `NaN` is `false`, and arithmetic propagates it.
Integer arithmetic is modelled exactly; theorems that quantify over
unbounded sizes carry a `< 2^53` bound, inside which IEEE doubles are
exact.  Response bodies are abstracted as strings.
-/

/-- A JavaScript number as it occurs in the range-handling code:
either an exact integer or `NaN`. -/
def JSNum := Option Int
deriving DecidableEq

def jsNaN : JSNum := none

def jsInt (n : Int) : JSNum := some n

def jsOfNat (n : Nat) : JSNum := some (n : Int)

/-- JS `+` on our numbers: `NaN` propagates. -/
def jsAdd : JSNum → JSNum → JSNum
  | some a, some b => some (a + b)
  | _, _ => none

/-- JS `-` on our numbers: `NaN` propagates. -/
def jsSub : JSNum → JSNum → JSNum
  | some a, some b => some (a - b)
  | _, _ => none

/-- `Math.min`: returns `NaN` if either argument is `NaN`. -/
def jsMin : JSNum → JSNum → JSNum
  | some a, some b => some (min a b)
  | _, _ => none

/-- `Math.max`: returns `NaN` if either argument is `NaN`. -/
def jsMax : JSNum → JSNum → JSNum
  | some a, some b => some (max a b)
  | _, _ => none

/-- JS `<`: any comparison involving `NaN` is `false`. -/
def jsLt : JSNum → JSNum → Bool
  | some a, some b => decide (a < b)
  | _, _ => false

/-- JS `>=`: any comparison involving `NaN` is `false`. -/
def jsGe : JSNum → JSNum → Bool
  | some a, some b => decide (b ≤ a)
  | _, _ => false

/-- JS `<=`: any comparison involving `NaN` is `false`. -/
def jsLe : JSNum → JSNum → Bool
  | some a, some b => decide (a ≤ b)
  | _, _ => false

/-- JS `===` on numbers: `NaN === x` is always `false`. -/
def jsStrictEq : JSNum → JSNum → Bool
  | some a, some b => decide (a = b)
  | _, _ => false

/-- Decimal rendering of an integer, as JS `Number.prototype.toString`
produces for integral values. -/
def intRepr (n : Int) : String :=
  if n < 0 then "-" ++ Nat.repr n.natAbs else Nat.repr n.toNat

/-- String interpolation of a JS number (`NaN` prints as `"NaN"`). -/
def jsNumRepr : JSNum → String
  | none => "NaN"
  | some n => intRepr n

/-- Numeric value of a decimal digit string (the digits captured by a
`(\d*)` regex group). -/
def digitsVal (l : List Char) : Nat :=
  l.foldl (fun n c => n * 10 + (c.toNat - 48)) 0

/-- JS `parseInt(s, 10)` restricted to the all-digit strings a `(\d*)`
group can capture: the empty string yields `NaN`. -/
def parseIntDigits (l : List Char) : JSNum :=
  if l = [] then none else some (digitsVal l : Int)

/-- One attempt of the regex `bytes=(\d*)-(\d*)` at a position just
after a literal `bytes=`: greedily take digits, require `-`, greedily
take digits. -/
def matchGroupsAfter (l : List Char) : Option (List Char × List Char) :=
  match l.dropWhile Char.isDigit with
  | [] => none
  | c :: rest =>
    if c = '-' then some (l.takeWhile Char.isDigit, rest.takeWhile Char.isDigit)
    else none

/-- `rangeHeader.match(/bytes=(\d*)-(\d*)/)`: search left to right for
an occurrence of `bytes=` whose continuation matches, returning the two
captured digit groups. -/
def findBytesMatch : List Char → Option (List Char × List Char)
  | [] => none
  | c :: rest =>
    if List.isPrefixOf "bytes=".toList (c :: rest) then
      match matchGroupsAfter ((c :: rest).drop 6) with
      | some g => some g
      | none => findBytesMatch rest
    else findBytesMatch rest

/-- JS `String.prototype.startsWith`. -/
def strStartsWith (s pre : String) : Bool :=
  List.isPrefixOf pre.toList s.toList

/-- JS `fileKey.includes("..")`: substring search for two consecutive
dots. -/
def hasDotDot : List Char → Bool
  | '.' :: '.' :: _ => true
  | _ :: rest => hasDotDot rest
  | [] => false

/-- An HTTP response as observable by the client: status, header list,
and body (bodies abstracted as strings, `none` = null body). -/
structure HttpResp where
  status : Nat
  headers : List (String × String)
  body : Option String
deriving DecidableEq

/-- First header with the given name, as `Headers.get` returns it. -/
def getHeader (hs : List (String × String)) (name : String) : Option String :=
  (hs.find? (fun p => p.1 == name)).map Prod.snd

/-- `Headers.set`: replace any existing header of that name. -/
def setHeader (hs : List (String × String)) (name value : String) :
    List (String × String) :=
  hs.filter (fun p => p.1 != name) ++ [(name, value)]

/-- Modelled from the spec: the `corsHeaders` constant imported from
`middleware/cors`, whose source file is not part of the excerpt.  The
spec (§6) states permissive CORS: origin `*`, methods
GET/POST/DELETE/OPTIONS, headers Content-Type/Authorization. -/
def corsHeaders : List (String × String) :=
  [("Access-Control-Allow-Origin", "*"),
   ("Access-Control-Allow-Methods", "GET, POST, DELETE, OPTIONS"),
   ("Access-Control-Allow-Headers", "Content-Type, Authorization")]

/-- `jsonResponse` from `utils/response`: JSON body with CORS headers. -/
def jsonResponse (body : String) (status : Nat) : HttpResp :=
  { status := status
    headers := corsHeaders ++ [("Content-Type", "application/json")]
    body := some body }

/-- Per-media-class cache policy (`CACHE_CONFIGS` entries). -/
structure MediaCacheConfig where
  browserCache : String
  kvTTL : Nat
  shouldCacheInKV : Bool
  maxKVSize : Nat
deriving DecidableEq

def CACHE_CONFIGS_image : MediaCacheConfig :=
  { browserCache := "public, max-age=31536000, immutable"
    kvTTL := 31536000, shouldCacheInKV := true, maxKVSize := 5 * 1024 * 1024 }

def CACHE_CONFIGS_video : MediaCacheConfig :=
  { browserCache := "public, max-age=31536000, immutable"
    kvTTL := 604800, shouldCacheInKV := false, maxKVSize := 0 }

def CACHE_CONFIGS_audio : MediaCacheConfig :=
  { browserCache := "public, max-age=31536000, immutable"
    kvTTL := 2592000, shouldCacheInKV := true, maxKVSize := 10 * 1024 * 1024 }

def VIDEO_CHUNK_SIZE : Nat := 2 * 1024 * 1024

def AUDIO_CHUNK_SIZE : Nat := 512 * 1024

def DEFAULT_CHUNK_SIZE : Nat := 1 * 1024 * 1024

def KV_NAMESPACE : String := "celebrity:media:"

/-- URL of the synthetic Workers-Cache key built by `getCacheKey`. -/
def getCacheKeyUrl (fileKey : String) : String :=
  "https://cache.local/celebrity/" ++ fileKey

def getKVKey (fileKey : String) : String := KV_NAMESPACE ++ fileKey

/-- `getCacheConfig`: prefix dispatch with the image profile as
default. -/
def getCacheConfig (contentType : String) : MediaCacheConfig :=
  if strStartsWith contentType "image/" then CACHE_CONFIGS_image
  else if strStartsWith contentType "video/" then CACHE_CONFIGS_video
  else if strStartsWith contentType "audio/" then CACHE_CONFIGS_audio
  else CACHE_CONFIGS_image

/-- The type-dependent chunk size chosen at the top of
`handleRangeRequest`. -/
def chunkSizeFor (contentType : String) : Nat :=
  if strStartsWith contentType "video/" then VIDEO_CHUNK_SIZE
  else if strStartsWith contentType "audio/" then AUDIO_CHUNK_SIZE
  else DEFAULT_CHUNK_SIZE

/-- `buildResponseHeaders` for whole-object responses. -/
def buildResponseHeaders (contentType : String) (contentLength : Nat)
    (cacheControl cacheStatus : String) : List (String × String) :=
  [("Content-Type", contentType),
   ("Content-Length", Nat.repr contentLength),
   ("Cache-Control", cacheControl),
   ("X-Cache", cacheStatus),
   ("X-Content-Type-Options", "nosniff"),
   ("Accept-Ranges", "bytes"),
   ("Content-Disposition", "inline")] ++ corsHeaders

/-- `buildRangeHeaders` for 206 responses; `start`, `end` and `total`
are JS numbers. -/
def buildRangeHeaders (contentType : String) (start endv total : JSNum)
    (cacheControl : String) : List (String × String) :=
  [("Content-Type", contentType),
   ("Content-Range",
     "bytes " ++ jsNumRepr start ++ "-" ++ jsNumRepr endv ++ "/" ++ jsNumRepr total),
   ("Content-Length", jsNumRepr (jsAdd (jsSub endv start) (some 1))),
   ("Accept-Ranges", "bytes"),
   ("Cache-Control", cacheControl),
   ("X-Content-Type-Options", "nosniff")] ++ corsHeaders

/-- The Workers edge cache (`caches.default`), keyed by synthetic URL
strings. -/
def CacheMap := String → Option HttpResp

def emptyCache : CacheMap := fun _ => none

def cachePut (c : CacheMap) (k : String) (r : HttpResp) : CacheMap :=
  fun k' => if k' = k then some r else c k'

/-- Metadata returned by `env.bucket.head`. -/
structure ObjInfo where
  size : Nat
  contentType : Option String

/-- The external collaborators of `handleFileStream`: object store
(head / get / ranged get), key-value tier (whose read may throw), and
whether each binding is configured.  `none` from `get`/`rangeGet`
collapses "no object" and "object without body", which the source
treats identically. -/
structure StreamEnv where
  bucketConfigured : Bool
  kvConfigured : Bool
  head : String → Option ObjInfo
  kvGet : String → Except Unit (Option String)
  get : String → Option String
  rangeGet : String → JSNum → JSNum → Option String

/-- Which external operations a run performed, plus which internal
paths it took. -/
structure Trace where
  headCalled : Bool := false
  kvGetCalled : Bool := false
  getCalled : Bool := false
  rangeGetCalled : Bool := false
  rangeResponderInvoked : Bool := false
  edgeCacheServed : Bool := false
deriving DecidableEq

def emptyTrace : Trace := {}

/-- Outcome of `handleRangeRequest`: the response, the updated edge
cache, and the arguments of the object-store range read if one was
attempted (`none` = no range read). -/
structure RangeResult where
  resp : HttpResp
  cache : CacheMap
  storeRead : Option (JSNum × JSNum)

/-- Range parsing outcome: the regex failed, or produced a
(start, end) pair of JS numbers. -/
inductive RangeParse where
  | malformed
  | parsed (start endv : JSNum)
deriving DecidableEq

/-- Lines 267–289 of the handler: regex match, chunk-size selection,
and the three range forms (`bytes=N-M`, `bytes=N-`, `bytes=-N`). -/
def parseRangeHeader (rangeHeader contentType : String) (totalSize : Nat) :
    RangeParse :=
  match findBytesMatch rangeHeader.toList with
  | none => .malformed
  | some (g1, g2) =>
    let chunkSize := chunkSizeFor contentType
    if g1 = [] ∧ g2 ≠ [] then
      let suffix := parseIntDigits g2
      .parsed (jsMax (jsSub (jsOfNat totalSize) suffix) (some 0))
        (some ((totalSize : Int) - 1))
    else
      let s := parseIntDigits g1
      let e := if g2 ≠ [] then parseIntDigits g2
               else jsMin (jsAdd s (some ((chunkSize : Int) - 1)))
                 (some ((totalSize : Int) - 1))
      .parsed s e

/-- Line 292: `start >= totalSize || start < 0 || end < start`. -/
def rangeInvalid (start endv : JSNum) (totalSize : Nat) : Bool :=
  jsGe start (jsOfNat totalSize) || jsLt start (some 0) || jsLt endv start

/-- URL of the first-chunk cache key
(`https://cache.local/range/<key>?chunk=0-<end>`). -/
def rangeChunkKey (fileKey : String) (endv : JSNum) : String :=
  "https://cache.local/range/" ++ fileKey ++ "?chunk=0-" ++ jsNumRepr endv

/-- Lines 318–342: the object-store range read, 206 assembly, and the
≤ 512 KiB first-chunk cache write. -/
def rangeStoreRead (env : StreamEnv) (cache : CacheMap)
    (fileKey contentType : String) (totalSize : Nat) (cacheControl : String)
    (start endv : JSNum) (rangeCacheKey : Option String) : RangeResult :=
  match env.rangeGet fileKey start (jsAdd (jsSub endv start) (some 1)) with
  | none =>
    { resp := { status := 500, headers := [], body := some "Failed to get range" }
      cache := cache, storeRead := some (start, jsAdd (jsSub endv start) (some 1)) }
  | some body =>
    let resp : HttpResp :=
      { status := 206
        headers := buildRangeHeaders contentType start endv (jsOfNat totalSize) cacheControl
        body := some body }
    let cache' := match rangeCacheKey with
      | some k =>
        if jsLe (jsAdd (jsSub endv start) (some 1)) (some ((512 * 1024 : Nat) : Int))
        then cachePut cache k resp else cache
      | none => cache
    { resp := resp, cache := cache'
      storeRead := some (start, jsAdd (jsSub endv start) (some 1)) }

/-- `handleRangeRequest` (lines 257–343): parse, validate, first-chunk
cache lookup, ranged store read. -/
def handleRangeRequest (env : StreamEnv) (cache : CacheMap)
    (fileKey rangeHeader contentType : String) (totalSize : Nat)
    (cacheControl : String) : RangeResult :=
  match parseRangeHeader rangeHeader contentType totalSize with
  | .malformed =>
    { resp := { status := 400, headers := [], body := some "Invalid range" }
      cache := cache, storeRead := none }
  | .parsed start endv =>
    if rangeInvalid start endv totalSize then
      { resp := { status := 416
                  headers := [("Content-Range", "bytes */" ++ Nat.repr totalSize)] ++ corsHeaders
                  body := none }
        cache := cache, storeRead := none }
    else
      let isFirstChunk := jsStrictEq start (some 0)
      let rangeCacheKey : Option String :=
        if isFirstChunk then some (rangeChunkKey fileKey endv) else none
      match (match rangeCacheKey with
             | some k => cache k
             | none => none) with
      | some cachedChunk =>
        { resp := cachedChunk, cache := cache, storeRead := none }
      | none =>
        rangeStoreRead env cache fileKey contentType totalSize cacheControl
          start endv rangeCacheKey

/-- Truthiness of `request.headers.get("range")`: absent (`null`) and
the empty string are both falsy. -/
def truthyOpt : Option String → Bool
  | none => false
  | some s => s != ""

def invalidKeyBody : String := "\x7b\"error\":\"Invalid file key\"\x7d"

def bucketMissingBody : String :=
  "\x7b\"error\":\"R2 bucket not configured\",\"debug\":\"env.bucket is undefined in handleFileStream\"\x7d"

def notFoundBody : String := "\x7b\"error\":\"File not found\"\x7d"

def mediaOnlyBody (fileKey contentType : String) : String :=
  "\x7b\"error\":\"This endpoint is for media files only. Use /download/ for other files.\",\"downloadUrl\":\"/download/"
    ++ fileKey ++ "\",\"contentType\":\"" ++ contentType ++ "\"\x7d"

/-- Result of one `handleFileStream` run: the response, the resulting
edge-cache contents, and the operation trace. -/
structure StreamResult where
  resp : HttpResp
  cache : CacheMap
  trace : Trace

/-- Steps 4–6 of the handler (lines 169–245): key-value tier lookup
(errors swallowed), object-store read, buffered-vs-streamed response,
background edge-cache population. -/
def streamKVAndR2 (env : StreamEnv) (cache : CacheMap)
    (fileKey cacheKey contentType : String) (fileSize : Nat)
    (config : MediaCacheConfig) : StreamResult :=
  let kvStep : Option String × Bool :=
    if config.shouldCacheInKV && decide (fileSize ≤ config.maxKVSize) && env.kvConfigured then
      match env.kvGet (getKVKey fileKey) with
      | .ok d => (d, true)
      | .error _ => (none, true)
    else (none, false)
  match kvStep with
  | (some kvData, kvCalled) =>
    let resp : HttpResp :=
      { status := 200
        headers := buildResponseHeaders contentType kvData.length config.browserCache "HIT-KV"
        body := some kvData }
    { resp := resp, cache := cachePut cache cacheKey resp
      trace := { headCalled := true, kvGetCalled := kvCalled } }
  | (none, kvCalled) =>
    match env.get fileKey with
    | none =>
      { resp := jsonResponse notFoundBody 404, cache := cache
        trace := { headCalled := true, kvGetCalled := kvCalled, getCalled := true } }
    | some body =>
      let headers := buildResponseHeaders contentType fileSize config.browserCache "MISS"
      if fileSize ≤ config.maxKVSize then
        let resp : HttpResp := { status := 200, headers := headers, body := some body }
        { resp := resp, cache := cachePut cache cacheKey resp
          trace := { headCalled := true, kvGetCalled := kvCalled, getCalled := true } }
      else
        { resp := { status := 200, headers := headers, body := some body }
          cache := cache
          trace := { headCalled := true, kvGetCalled := kvCalled, getCalled := true } }

/-- Steps 2–6 after the edge-cache check (lines 136–245): metadata
probe, media-type gate, range dispatch, then the KV/R2 path. -/
def streamAfterCache (env : StreamEnv) (cache : CacheMap)
    (rangeHeader : Option String) (fileKey cacheKey : String) : StreamResult :=
  match env.head fileKey with
  | none =>
    { resp := jsonResponse notFoundBody 404, cache := cache
      trace := { headCalled := true } }
  | some objectInfo =>
    let contentType := objectInfo.contentType.getD "application/octet-stream"
    let isImage := strStartsWith contentType "image/"
    let isVideo := strStartsWith contentType "video/"
    let isAudio := strStartsWith contentType "audio/"
    if !isImage && !isVideo && !isAudio then
      { resp := jsonResponse (mediaOnlyBody fileKey contentType) 400, cache := cache
        trace := { headCalled := true } }
    else
      let fileSize := objectInfo.size
      let config := getCacheConfig contentType
      if truthyOpt rangeHeader && (isVideo || isAudio) then
        let r := handleRangeRequest env cache fileKey (rangeHeader.getD "")
          contentType fileSize config.browserCache
        { resp := r.resp, cache := r.cache
          trace := { headCalled := true, rangeResponderInvoked := true
                     rangeGetCalled := r.storeRead.isSome } }
      else
        streamKVAndR2 env cache fileKey cacheKey contentType fileSize config

/-- `handleFileStream` (lines 98–254): key validation, bucket check,
edge-cache hit for non-range requests, then `streamAfterCache`. -/
def handleFileStream (env : StreamEnv) (cache : CacheMap)
    (rangeHeader : Option String) (fileKey : String) : StreamResult :=
  if fileKey == "" || hasDotDot fileKey.toList then
    { resp := jsonResponse invalidKeyBody 400, cache := cache, trace := {} }
  else if !env.bucketConfigured then
    { resp := jsonResponse bucketMissingBody 500, cache := cache, trace := {} }
  else
    let cacheKey := getCacheKeyUrl fileKey
    match cache cacheKey, truthyOpt rangeHeader with
    | some cachedResponse, false =>
      { resp := { cachedResponse with
                    headers := setHeader cachedResponse.headers "X-Cache" "HIT-WORKERS" }
        cache := cache
        trace := { edgeCacheServed := true } }
    | some _, true => streamAfterCache env cache rangeHeader fileKey cacheKey
    | none, _ => streamAfterCache env cache rangeHeader fileKey cacheKey

/-- A concrete environment for closed-term evaluations: the object
store holds data for every key (`rangeGet` always succeeds with body
`"DATA"`), everything else is empty. -/
def testEnv : StreamEnv :=
  { bucketConfigured := true
    kvConfigured := false
    head := fun _ => none
    kvGet := fun _ => .ok none
    get := fun _ => none
    rangeGet := fun _ _ _ => some "DATA" }

/-- First request of the C4 scenario: video object of 52428800 bytes,
`Range: bytes=0-2097151`, empty caches. -/
def c4call1 : RangeResult :=
  handleRangeRequest testEnv emptyCache "v" "bytes=0-2097151" "video/mp4" 52428800 "cc"

/-- Identical repeat of the C4 scenario request, against the cache
state the first request left behind. -/
def c4call2 : RangeResult :=
  handleRangeRequest testEnv c4call1.cache "v" "bytes=0-2097151" "video/mp4" 52428800 "cc"

/-! ## Helper lemmas about the range-header matcher -/

theorem takeWhile_digits_of_all {a : List Char}
    (h : ∀ c ∈ a, c.isDigit = true) : a.takeWhile Char.isDigit = a := by
  induction a with
  | nil => rfl
  | cons c cs ih =>
    rw [List.takeWhile_cons_of_pos (h c (by simp))]
    rw [ih (fun x hx => h x (by simp [hx]))]

theorem takeWhile_digits_append {a : List Char} {x : Char} {t : List Char}
    (h : ∀ c ∈ a, c.isDigit = true) (hx : x.isDigit = false) :
    (a ++ x :: t).takeWhile Char.isDigit = a := by
  induction a with
  | nil => simp [List.takeWhile_cons_of_neg, hx]
  | cons c cs ih =>
    rw [List.cons_append, List.takeWhile_cons_of_pos (h c (by simp))]
    rw [ih (fun y hy => h y (by simp [hy]))]

theorem dropWhile_digits_append {a : List Char} {x : Char} {t : List Char}
    (h : ∀ c ∈ a, c.isDigit = true) (hx : x.isDigit = false) :
    (a ++ x :: t).dropWhile Char.isDigit = x :: t := by
  induction a with
  | nil => simp [List.dropWhile_cons_of_neg, hx]
  | cons c cs ih =>
    rw [List.cons_append, List.dropWhile_cons_of_pos (h c (by simp))]
    exact ih (fun y hy => h y (by simp [hy]))

theorem matchGroupsAfter_digits {ds1 ds2 : List Char}
    (h1 : ∀ c ∈ ds1, c.isDigit = true) (h2 : ∀ c ∈ ds2, c.isDigit = true) :
    matchGroupsAfter (ds1 ++ '-' :: ds2) = some (ds1, ds2) := by
  unfold matchGroupsAfter
  rw [dropWhile_digits_append h1 (by decide)]
  simp [takeWhile_digits_append h1 (by decide : Char.isDigit '-' = false),
    takeWhile_digits_of_all h2]

theorem findBytesMatch_bytes_form {ds1 ds2 : List Char}
    (h1 : ∀ c ∈ ds1, c.isDigit = true) (h2 : ∀ c ∈ ds2, c.isDigit = true) :
    findBytesMatch ("bytes=".toList ++ (ds1 ++ '-' :: ds2)) = some (ds1, ds2) := by
  have hpre : List.isPrefixOf "bytes=".toList
      ("bytes=".toList ++ (ds1 ++ '-' :: ds2)) = true := by
    simp [List.isPrefixOf]
  show findBytesMatch ('b' :: 'y' :: 't' :: 'e' :: 's' :: '=' :: (ds1 ++ '-' :: ds2))
      = some (ds1, ds2)
  rw [findBytesMatch]
  rw [show ('b' :: 'y' :: 't' :: 'e' :: 's' :: '=' :: (ds1 ++ '-' :: ds2))
      = "bytes=".toList ++ (ds1 ++ '-' :: ds2) from rfl]
  rw [if_pos hpre]
  have hdrop : ("bytes=".toList ++ (ds1 ++ '-' :: ds2)).drop 6 = ds1 ++ '-' :: ds2 := rfl
  rw [hdrop, matchGroupsAfter_digits h1 h2]

/-! ## Reduction lemmas for the JS-number operations -/

@[simp] theorem jsAdd_some (a b : Int) : jsAdd (some a) (some b) = some (a + b) := rfl

@[simp] theorem jsSub_some (a b : Int) : jsSub (some a) (some b) = some (a - b) := rfl

@[simp] theorem jsMin_some (a b : Int) : jsMin (some a) (some b) = some (min a b) := rfl

@[simp] theorem jsMax_some (a b : Int) : jsMax (some a) (some b) = some (max a b) := rfl

@[simp] theorem jsLt_some (a b : Int) : jsLt (some a) (some b) = decide (a < b) := rfl

@[simp] theorem jsGe_some (a b : Int) : jsGe (some a) (some b) = decide (b ≤ a) := rfl

@[simp] theorem jsLe_some (a b : Int) : jsLe (some a) (some b) = decide (a ≤ b) := rfl

@[simp] theorem jsStrictEq_some (a b : Int) :
    jsStrictEq (some a) (some b) = decide (a = b) := rfl

@[simp] theorem jsAdd_nan (y : JSNum) : jsAdd none y = none := rfl

@[simp] theorem jsSub_nan (y : JSNum) : jsSub none y = none := rfl

@[simp] theorem jsMin_nan (y : JSNum) : jsMin none y = none := rfl

@[simp] theorem jsGe_nan (y : JSNum) : jsGe none y = false := rfl

@[simp] theorem jsLt_nan (y : JSNum) : jsLt none y = false := rfl

@[simp] theorem jsLt_nan_right (x : JSNum) : jsLt x none = false := by
  cases x <;> rfl

@[simp] theorem jsStrictEq_nan (y : JSNum) : jsStrictEq none y = false := rfl

@[simp] theorem jsOfNat_eq (n : Nat) : jsOfNat n = some (n : Int) := rfl

theorem jsNumRepr_coe (n : Nat) : jsNumRepr (some (n : Int)) = Nat.repr n := by
  show intRepr (n : Int) = Nat.repr n
  unfold intRepr
  rw [if_neg (Int.not_lt.mpr (Int.natCast_nonneg n)), Int.toNat_natCast]

/-! ## Characterization of `parseRangeHeader` on the three range forms -/

theorem parseRange_explicit {ds1 ds2 : List Char} (ct : String) (S : Nat)
    (h1 : ∀ c ∈ ds1, c.isDigit = true) (h2 : ∀ c ∈ ds2, c.isDigit = true)
    (hne1 : ds1 ≠ []) (hne2 : ds2 ≠ []) :
    parseRangeHeader (String.mk ("bytes=".toList ++ (ds1 ++ '-' :: ds2))) ct S
      = .parsed (some (digitsVal ds1 : Int)) (some (digitsVal ds2 : Int)) := by
  unfold parseRangeHeader
  rw [show (String.mk ("bytes=".toList ++ (ds1 ++ '-' :: ds2))).toList
      = "bytes=".toList ++ (ds1 ++ '-' :: ds2) from rfl]
  rw [findBytesMatch_bytes_form h1 h2]
  simp [parseIntDigits, hne1, hne2]

theorem parseRange_open {ds1 : List Char} (ct : String) (S : Nat)
    (h1 : ∀ c ∈ ds1, c.isDigit = true) (hne1 : ds1 ≠ []) :
    parseRangeHeader (String.mk ("bytes=".toList ++ (ds1 ++ ['-']))) ct S
      = .parsed (some (digitsVal ds1 : Int))
          (some (min ((digitsVal ds1 : Int) + ((chunkSizeFor ct : Int) - 1))
            ((S : Int) - 1))) := by
  unfold parseRangeHeader
  rw [show (String.mk ("bytes=".toList ++ (ds1 ++ ['-']))).toList
      = "bytes=".toList ++ (ds1 ++ '-' :: ([] : List Char)) from rfl]
  rw [findBytesMatch_bytes_form h1 (by simp)]
  simp [parseIntDigits, hne1]

theorem parseRange_suffix {ds2 : List Char} (ct : String) (S : Nat)
    (h2 : ∀ c ∈ ds2, c.isDigit = true) (hne2 : ds2 ≠ []) :
    parseRangeHeader (String.mk ("bytes=".toList ++ ('-' :: ds2))) ct S
      = .parsed (some (max ((S : Int) - (digitsVal ds2 : Int)) 0))
          (some ((S : Int) - 1)) := by
  unfold parseRangeHeader
  rw [show (String.mk ("bytes=".toList ++ ('-' :: ds2))).toList
      = "bytes=".toList ++ (([] : List Char) ++ '-' :: ds2) from rfl]
  rw [findBytesMatch_bytes_form (by simp) h2]
  simp [parseIntDigits, hne2]

theorem getHeader_range_contentRange (ct : String) (s e t : JSNum) (cc : String) :
    getHeader (buildRangeHeaders ct s e t cc) "Content-Range"
      = some ("bytes " ++ jsNumRepr s ++ "-" ++ jsNumRepr e ++ "/" ++ jsNumRepr t) := rfl

theorem getHeader_range_contentLength (ct : String) (s e t : JSNum) (cc : String) :
    getHeader (buildRangeHeaders ct s e t cc) "Content-Length"
      = some (jsNumRepr (jsAdd (jsSub e s) (some 1))) := rfl

theorem rangeStoreRead_resp (env : StreamEnv) (cache : CacheMap)
    (fk ct : String) (S : Nat) (cc : String) (a b : Int) (K : Option String)
    (body : String)
    (hstore : env.rangeGet fk (some a) (some (b - a + 1)) = some body) :
    (rangeStoreRead env cache fk ct S cc (some a) (some b) K).resp
      = { status := 206
          headers := buildRangeHeaders ct (some a) (some b) (jsOfNat S) cc
          body := some body } := by
  unfold rangeStoreRead
  simp only [jsSub_some, jsAdd_some]
  rw [hstore]

theorem isPrefixOf_head {a : Char} {as l : List Char}
    (h : List.isPrefixOf (a :: as) l = true) :
    ∃ t, l = a :: t ∧ List.isPrefixOf as t = true := by
  cases l with
  | nil => simp [List.isPrefixOf] at h
  | cons c cs =>
    simp only [List.isPrefixOf, Bool.and_eq_true, beq_iff_eq] at h
    exact ⟨cs, by rw [h.1], h.2⟩

theorem image_not_video_audio {ct : String} (h : strStartsWith ct "image/" = true) :
    strStartsWith ct "video/" = false ∧ strStartsWith ct "audio/" = false := by
  unfold strStartsWith at h ⊢
  have h' : List.isPrefixOf ('i' :: "mage/".toList) ct.toList = true := h
  obtain ⟨t, ht, -⟩ := isPrefixOf_head h'
  rw [ht]
  constructor
  · show List.isPrefixOf ('v' :: "ideo/".toList) ('i' :: t) = false
    simp [List.isPrefixOf]
  · show List.isPrefixOf ('a' :: "udio/".toList) ('i' :: t) = false
    simp [List.isPrefixOf]

theorem streamKVAndR2_whole (env : StreamEnv) (cache : CacheMap)
    (fk ck ct : String) (size : Nat) (config : MediaCacheConfig) (body : String)
    (hget : env.get fk = some body) :
    (streamKVAndR2 env cache fk ck ct size config).resp.status = 200 ∧
    (streamKVAndR2 env cache fk ck ct size config).trace.rangeResponderInvoked = false ∧
    (streamKVAndR2 env cache fk ck ct size config).trace.rangeGetCalled = false ∧
    (streamKVAndR2 env cache fk ck ct size config).trace.edgeCacheServed = false := by
  unfold streamKVAndR2
  by_cases hel : (config.shouldCacheInKV && decide (size ≤ config.maxKVSize)
      && env.kvConfigured) = true
  · rw [if_pos hel]
    cases hkv : env.kvGet (getKVKey fk) with
    | ok d =>
      cases d with
      | some kvData => exact ⟨rfl, rfl, rfl, rfl⟩
      | none =>
        rw [hget]
        refine ⟨?_, ?_, ?_, ?_⟩ <;> dsimp only <;> split <;> rfl
    | error err =>
      rw [hget]
      refine ⟨?_, ?_, ?_, ?_⟩ <;> dsimp only <;> split <;> rfl
  · rw [if_neg hel, hget]
    refine ⟨?_, ?_, ?_, ?_⟩ <;> dsimp only <;> split <;> rfl

/-! ## Claim theorems -/

/-- Claim C5: for every suffix range header `bytes=-N` (N a non-empty
digit string) on an object of total size S, the effective byte range
computed by `handleRangeRequest` is `[max(S-N, 0), S-1]`.  (Bounds
`< 2^53` keep the exact-integer model faithful to IEEE doubles.) -/
theorem C5_suffix_range (ds : List Char) (S : Nat) (ct : String)
    (hd : ∀ c ∈ ds, c.isDigit = true) (hne : ds ≠ [])
    (hN : digitsVal ds < 2 ^ 53) (hS : S < 2 ^ 53) :
    parseRangeHeader (String.mk ("bytes=".toList ++ ('-' :: ds))) ct S
      = .parsed (some (max ((S : Int) - (digitsVal ds : Int)) 0))
          (some ((S : Int) - 1)) :=
  parseRange_suffix ct S hd hne

/-- Witness for C5 at `bytes=-5`, S = 100: effective range [95, 99]. -/
theorem C5_suffix_range_witness :
    parseRangeHeader (String.mk ("bytes=".toList ++ ('-' :: ['5']))) "video/mp4" 100
      = .parsed (some 95) (some 99) := by
  rw [C5_suffix_range ['5'] 100 "video/mp4" (by decide) (by decide) (by decide) (by decide)]
  decide

/-- Claim C6: for every open-ended range header `bytes=N-` with
0 ≤ N < totalSize, the effective end offset is
`min(N + chunkSize - 1, totalSize - 1)`, where chunkSize is 2 MiB for
`video/`, 512 KiB for `audio/`, and 1 MiB otherwise. -/
theorem C6_open_range (ds : List Char) (S : Nat) (ct : String)
    (hd : ∀ c ∈ ds, c.isDigit = true) (hne : ds ≠ [])
    (hNS : digitsVal ds < S) (hS : S < 2 ^ 53) :
    parseRangeHeader (String.mk ("bytes=".toList ++ (ds ++ ['-']))) ct S
      = .parsed (some (digitsVal ds : Int))
          (some (min ((digitsVal ds : Int)
              + (if strStartsWith ct "video/" then 2097152
                 else if strStartsWith ct "audio/" then 524288 else 1048576) - 1)
            ((S : Int) - 1))) := by
  rw [parseRange_open ct S hd hne]
  have hc : ((chunkSizeFor ct : Nat) : Int)
      = (if strStartsWith ct "video/" then 2097152
         else if strStartsWith ct "audio/" then 524288 else 1048576) := by
    rcases hv : strStartsWith ct "video/" <;> rcases ha : strStartsWith ct "audio/" <;>
      simp [chunkSizeFor, VIDEO_CHUNK_SIZE, AUDIO_CHUNK_SIZE, DEFAULT_CHUNK_SIZE, hv, ha]
  rw [hc, ← add_sub_assoc]

/-- Witness for C6 at `bytes=7-`, audio type, S = 100: end offset is
`min(7 + 524288 - 1, 99) = 99`. -/
theorem C6_open_range_witness :
    parseRangeHeader (String.mk ("bytes=".toList ++ (['7'] ++ ['-']))) "audio/mp3" 100
      = .parsed (some 7) (some 99) := by
  rw [C6_open_range ['7'] 100 "audio/mp3" (by decide) (by decide) (by decide) (by decide)]
  decide

/-- Claim C10: for the header `bytes=-` (both numeric groups empty) the
regex matches, start parses to NaN, every validation comparison is
false, and `handleRangeRequest` proceeds to an object-store range read
with a non-numeric (NaN) offset — neither the 400 nor the 416 branch
fires. -/
theorem C10_nan_passthrough (ct : String) (S : Nat) (env : StreamEnv)
    (cache : CacheMap) (fk cc : String) :
    parseRangeHeader "bytes=-" ct S = .parsed none none ∧
    (handleRangeRequest env cache fk "bytes=-" ct S cc).storeRead = some (none, none) ∧
    (handleRangeRequest env cache fk "bytes=-" ct S cc).resp.status ≠ 400 ∧
    (handleRangeRequest env cache fk "bytes=-" ct S cc).resp.status ≠ 416 := by
  have hred : handleRangeRequest env cache fk "bytes=-" ct S cc
      = rangeStoreRead env cache fk ct S cc none none none := rfl
  refine ⟨rfl, ?_, ?_, ?_⟩ <;> rw [hred] <;> unfold rangeStoreRead <;>
    rcases henv : env.rangeGet fk none (jsAdd (jsSub none none) (some 1)) with _ | b <;>
      simp [henv]

/-- Counterexample to claim C2 as stated: for the malformed header
`"garbage"` the code answers 400 `Invalid range` with no Content-Range
header, not a 416 carrying `bytes */100`. -/
theorem C2_counterexample :
    (handleRangeRequest testEnv emptyCache "f" "garbage" "video/mp4" 100 "cc").resp.status = 400 ∧
    ¬ ((handleRangeRequest testEnv emptyCache "f" "garbage" "video/mp4" 100 "cc").resp.status = 416
       ∧ getHeader (handleRangeRequest testEnv emptyCache "f" "garbage" "video/mp4" 100 "cc").resp.headers
           "Content-Range" = some "bytes */100") := by
  decide

/-- Claim C2 as amended: for every range header the regex cannot match,
`handleRangeRequest` returns a plain 400 `Invalid range` response (no
Content-Range header) and attempts no object-store range read; the 416
with `bytes */total` is reserved for semantically invalid ranges. -/
theorem C2_amended_malformed (header ct : String) (S : Nat) (env : StreamEnv)
    (cache : CacheMap) (fk cc : String)
    (h : findBytesMatch header.toList = none) :
    handleRangeRequest env cache fk header ct S cc
      = { resp := { status := 400, headers := [], body := some "Invalid range" }
          cache := cache, storeRead := none } := by
  unfold handleRangeRequest parseRangeHeader
  rw [h]

/-- Witness for the amended C2 at the malformed header `"garbage"`. -/
theorem C2_amended_malformed_witness :
    handleRangeRequest testEnv emptyCache "f" "garbage" "video/mp4" 100 "cc"
      = { resp := { status := 400, headers := [], body := some "Invalid range" }
          cache := emptyCache, storeRead := none } :=
  C2_amended_malformed "garbage" "video/mp4" 100 testEnv emptyCache "f" "cc" (by decide)

/-- Counterexample to claim C3 as stated: `bytes=5-100` on a 10-byte
video object is served as a 206 with `Content-Range: bytes 5-100/10`,
not rejected with 416, although its end exceeds totalSize-1. -/
theorem C3_counterexample :
    (handleRangeRequest testEnv emptyCache "f" "bytes=5-100" "video/mp4" 10 "cc").resp.status = 206 ∧
    (handleRangeRequest testEnv emptyCache "f" "bytes=5-100" "video/mp4" 10 "cc").resp.status ≠ 416 ∧
    getHeader (handleRangeRequest testEnv emptyCache "f" "bytes=5-100" "video/mp4" 10 "cc").resp.headers
      "Content-Range" = some "bytes 5-100/10" := by
  decide

/-- Claim C3 as amended: the validation enforces only
`0 ≤ start ≤ end` and `start ≤ totalSize-1` — a range failing it gets
the 416 with the total size and no store read, while on any range that
passes, the end offset is NOT checked against totalSize-1 (such ranges
are served as-is, per the counterexample). -/
theorem C3_amended_invariant (header ct : String) (S : Nat) (env : StreamEnv)
    (cache : CacheMap) (fk cc : String) (s e : JSNum)
    (hp : parseRangeHeader header ct S = .parsed s e) :
    (rangeInvalid s e S = true →
      handleRangeRequest env cache fk header ct S cc
        = { resp := { status := 416
                      headers := [("Content-Range", "bytes */" ++ Nat.repr S)] ++ corsHeaders
                      body := none }
            cache := cache, storeRead := none }) ∧
    (rangeInvalid s e S = false → ∀ a b : Int, s = some a → e = some b →
      0 ≤ a ∧ a ≤ b ∧ a ≤ (S : Int) - 1) := by
  constructor
  · intro hbad
    unfold handleRangeRequest
    rw [hp]
    simp [hbad]
  · intro hok a b hs he
    subst hs; subst he
    unfold rangeInvalid at hok
    simp only [jsGe_some, jsLt_some, jsOfNat_eq, Bool.or_eq_false_iff,
      decide_eq_false_iff_not] at hok
    omega

/-- Witness for the amended C3: `bytes=15-3` on a 10-byte object (start
beyond the size and end before start) draws the 416 with
`Content-Range: bytes */10`; and the served range `bytes=5-100` on the
same object satisfies `0 ≤ 5 ≤ 100` and `5 ≤ 9`. -/
theorem C3_amended_invariant_witness :
    (handleRangeRequest testEnv emptyCache "f" "bytes=15-3" "video/mp4" 10 "cc"
      = { resp := { status := 416
                    headers := [("Content-Range", "bytes */10")] ++ corsHeaders
                    body := none }
          cache := emptyCache, storeRead := none }) ∧
    (0 ≤ (5 : Int) ∧ (5 : Int) ≤ 100 ∧ (5 : Int) ≤ (10 : Int) - 1) := by
  constructor
  · have h := (C3_amended_invariant "bytes=15-3" "video/mp4" 10 testEnv emptyCache
      "f" "cc" (some 15) (some 3) (by decide)).1 (by decide)
    simpa using h
  · exact (C3_amended_invariant "bytes=5-100" "video/mp4" 10 testEnv emptyCache
      "f" "cc" (some 5) (some 100) (by decide)).2 (by decide) 5 100 rfl rfl

/-- Claim C1: for every object of total size S and every range header
`bytes=A-B` with 0 ≤ A ≤ B < S (A, B given as digit strings), a
successful `handleRangeRequest` is a 206 whose Content-Range is exactly
`bytes A-B/S` and whose Content-Length equals B-A+1.  The store is
assumed to deliver the requested interval and the first-chunk cache to
have no entry for this request. -/
theorem C1_explicit_range (ds1 ds2 : List Char) (S : Nat) (env : StreamEnv)
    (cache : CacheMap) (fk ct cc body : String)
    (h1 : ∀ c ∈ ds1, c.isDigit = true) (h2 : ∀ c ∈ ds2, c.isDigit = true)
    (hne1 : ds1 ≠ []) (hne2 : ds2 ≠ [])
    (hAB : digitsVal ds1 ≤ digitsVal ds2) (hBS : digitsVal ds2 < S)
    (hS : S < 2 ^ 53)
    (hstore : env.rangeGet fk (some (digitsVal ds1 : Int))
        (some ((digitsVal ds2 : Int) - (digitsVal ds1 : Int) + 1)) = some body)
    (hcache : cache (rangeChunkKey fk (some (digitsVal ds2 : Int))) = none) :
    (handleRangeRequest env cache fk
        (String.mk ("bytes=".toList ++ (ds1 ++ '-' :: ds2))) ct S cc).resp.status = 206 ∧
    getHeader (handleRangeRequest env cache fk
        (String.mk ("bytes=".toList ++ (ds1 ++ '-' :: ds2))) ct S cc).resp.headers
        "Content-Range"
      = some ("bytes " ++ Nat.repr (digitsVal ds1) ++ "-" ++ Nat.repr (digitsVal ds2)
          ++ "/" ++ Nat.repr S) ∧
    getHeader (handleRangeRequest env cache fk
        (String.mk ("bytes=".toList ++ (ds1 ++ '-' :: ds2))) ct S cc).resp.headers
        "Content-Length"
      = some (Nat.repr (digitsVal ds2 - digitsVal ds1 + 1)) := by
  have hparse := parseRange_explicit ct S h1 h2 hne1 hne2
  have hvalid : rangeInvalid (some (digitsVal ds1 : Int)) (some (digitsVal ds2 : Int)) S
      = false := by
    unfold rangeInvalid
    simp only [jsGe_some, jsOfNat_eq, jsLt_some, Bool.or_eq_false_iff,
      decide_eq_false_iff_not]
    refine ⟨⟨?_, ?_⟩, ?_⟩ <;> omega
  have hkey : handleRangeRequest env cache fk
      (String.mk ("bytes=".toList ++ (ds1 ++ '-' :: ds2))) ct S cc
      = rangeStoreRead env cache fk ct S cc (some (digitsVal ds1 : Int))
          (some (digitsVal ds2 : Int))
          (if (digitsVal ds1 : Int) = 0
           then some (rangeChunkKey fk (some (digitsVal ds2 : Int))) else none) := by
    unfold handleRangeRequest
    rw [hparse]
    simp only [hvalid]
    by_cases hA : (digitsVal ds1 : Int) = 0
    · simp [jsStrictEq_some, hA, hcache]
    · simp [jsStrictEq_some, hA]
  have hresp := rangeStoreRead_resp env cache fk ct S cc
    (digitsVal ds1 : Int) (digitsVal ds2 : Int)
    (if (digitsVal ds1 : Int) = 0
     then some (rangeChunkKey fk (some (digitsVal ds2 : Int))) else none)
    body hstore
  have hcast : ((digitsVal ds2 : Int) - (digitsVal ds1 : Int) + 1)
      = ((digitsVal ds2 - digitsVal ds1 + 1 : Nat) : Int) := by omega
  refine ⟨?_, ?_, ?_⟩
  · rw [hkey, hresp]
  · rw [hkey, hresp]
    rw [show ({ status := 206
                headers := buildRangeHeaders ct (some (digitsVal ds1 : Int))
                  (some (digitsVal ds2 : Int)) (jsOfNat S) cc
                body := some body } : HttpResp).headers
        = buildRangeHeaders ct (some (digitsVal ds1 : Int))
            (some (digitsVal ds2 : Int)) (jsOfNat S) cc from rfl]
    rw [getHeader_range_contentRange]
    rw [jsOfNat_eq, jsNumRepr_coe, jsNumRepr_coe, jsNumRepr_coe]
  · rw [hkey, hresp]
    rw [show ({ status := 206
                headers := buildRangeHeaders ct (some (digitsVal ds1 : Int))
                  (some (digitsVal ds2 : Int)) (jsOfNat S) cc
                body := some body } : HttpResp).headers
        = buildRangeHeaders ct (some (digitsVal ds1 : Int))
            (some (digitsVal ds2 : Int)) (jsOfNat S) cc from rfl]
    rw [getHeader_range_contentLength]
    simp only [jsSub_some, jsAdd_some]
    rw [hcast, jsNumRepr_coe]

/-- Witness for C1 at `bytes=1-2` on a 10-byte video object with an
always-succeeding store and empty caches. -/
theorem C1_explicit_range_witness :
    (handleRangeRequest testEnv emptyCache "f"
        (String.mk ("bytes=".toList ++ (['1'] ++ '-' :: ['2']))) "video/mp4" 10 "cc").resp.status
      = 206 ∧
    getHeader (handleRangeRequest testEnv emptyCache "f"
        (String.mk ("bytes=".toList ++ (['1'] ++ '-' :: ['2']))) "video/mp4" 10 "cc").resp.headers
        "Content-Range" = some "bytes 1-2/10" ∧
    getHeader (handleRangeRequest testEnv emptyCache "f"
        (String.mk ("bytes=".toList ++ (['1'] ++ '-' :: ['2']))) "video/mp4" 10 "cc").resp.headers
        "Content-Length" = some "2" := by
  have h := C1_explicit_range ['1'] ['2'] 10 testEnv emptyCache "f" "video/mp4" "cc"
    "DATA" (by decide) (by decide) (by decide) (by decide) (by decide) (by decide)
    (by decide) rfl rfl
  refine ⟨h.1, ?_, ?_⟩
  · rw [h.2.1]; rfl
  · rw [h.2.2]; rfl

/-- Counterexample to claim C4 as stated: after the first
`bytes=0-2097151` request on the 50 MB video, nothing is stored under
the first-chunk cache key (the cache is unchanged), and the identical
repeat request performs another object-store range read. -/
theorem C4_counterexample :
    c4call1.cache (rangeChunkKey "v" (some 2097151)) = none ∧
    c4call1.cache = emptyCache ∧
    c4call2.storeRead ≠ none := by
  refine ⟨rfl, rfl, ?_⟩
  decide

/-- Claim C4 as amended: the first request yields 206 with
`Content-Range: bytes 0-2097151/52428800` and length 2097152, but the
2 MiB chunk exceeds the 512 KiB first-chunk caching ceiling, so it is
not stored; the identical repeat request performs another object-store
range read (offset 0, length 2097152) and returns an identical 206. -/
theorem C4_amended_first_chunk_too_big :
    c4call1.resp.status = 206 ∧
    getHeader c4call1.resp.headers "Content-Range" = some "bytes 0-2097151/52428800" ∧
    getHeader c4call1.resp.headers "Content-Length" = some "2097152" ∧
    c4call1.cache (rangeChunkKey "v" (some 2097151)) = none ∧
    c4call2.storeRead = some (some 0, some 2097152) ∧
    c4call2.resp = c4call1.resp := by
  refine ⟨rfl, ?_, ?_, rfl, ?_, rfl⟩ <;> decide

/-- Claim C7: for every file key that is empty or contains the
parent-directory traversal token `..`, `handleFileStream` returns the
400 `Invalid file key` JSON response with the cache untouched and an
all-false operation trace — no head, get, KV or range read happens. -/
theorem C7_traversal_rejected (env : StreamEnv) (cache : CacheMap)
    (rh : Option String) (fk : String)
    (h : fk = "" ∨ hasDotDot fk.toList = true) :
    handleFileStream env cache rh fk
      = { resp := jsonResponse invalidKeyBody 400, cache := cache
          trace := emptyTrace } := by
  unfold handleFileStream
  rcases h with h | h
  · subst h; rfl
  · have h' : hasDotDot fk.data = true := h
    simp [h', emptyTrace]

/-- Witness for C7 at the traversal key `a/../b`. -/
theorem C7_traversal_rejected_witness :
    handleFileStream testEnv emptyCache none "a/../b"
      = { resp := jsonResponse invalidKeyBody 400, cache := emptyCache
          trace := emptyTrace } :=
  C7_traversal_rejected testEnv emptyCache none "a/../b" (Or.inr (by decide))

/-- Claim C8: a key-value read that throws is swallowed and treated
exactly as a miss — for every environment, cache state, range header
and key, the run with a throwing KV `get` equals, response, cache and
trace alike, the run with a KV `get` returning null (so it falls
through to the object store and the failure never changes the
client-visible status or body). -/
theorem C8_kv_throw_is_miss (env : StreamEnv) (cache : CacheMap)
    (rh : Option String) (fk : String) :
    handleFileStream { env with kvGet := fun _ => .error () } cache rh fk
      = handleFileStream { env with kvGet := fun _ => .ok none } cache rh fk := rfl

/-- Claim C9: for an `image/` object requested with a (truthy) Range
header, `handleFileStream` never invokes the range responder, performs
no range read, skips the edge-cache hit path, and answers 200
(the range header is silently ignored, never a 206). -/
theorem C9_image_ignores_range (env : StreamEnv) (cache : CacheMap)
    (rh fk ct body : String) (info : ObjInfo)
    (hk : (fk == "" || hasDotDot fk.toList) = false)
    (hb : env.bucketConfigured = true)
    (hh : env.head fk = some info)
    (hct : info.contentType = some ct)
    (himg : strStartsWith ct "image/" = true)
    (hrh : rh ≠ "")
    (hget : env.get fk = some body) :
    (handleFileStream env cache (some rh) fk).resp.status = 200 ∧
    (handleFileStream env cache (some rh) fk).trace.rangeResponderInvoked = false ∧
    (handleFileStream env cache (some rh) fk).trace.rangeGetCalled = false ∧
    (handleFileStream env cache (some rh) fk).trace.edgeCacheServed = false := by
  have htr : truthyOpt (some rh) = true := by
    simp [truthyOpt, hrh]
  obtain ⟨hv, ha⟩ := image_not_video_audio himg
  have hred : handleFileStream env cache (some rh) fk
      = streamAfterCache env cache (some rh) fk (getCacheKeyUrl fk) := by
    unfold handleFileStream
    rw [hk]
    simp only [Bool.false_eq_true, if_false, hb, Bool.not_true]
    cases hc : cache (getCacheKeyUrl fk) <;> rw [htr]
  have hred2 : streamAfterCache env cache (some rh) fk (getCacheKeyUrl fk)
      = streamKVAndR2 env cache fk (getCacheKeyUrl fk) ct info.size
          (getCacheConfig ct) := by
    unfold streamAfterCache
    rw [hh]
    simp only [hct, Option.getD_some, himg, hv, ha, htr, Bool.not_true,
      Bool.false_and, Bool.and_false, Bool.or_false, Bool.false_eq_true, if_false]
  rw [hred, hred2]
  exact streamKVAndR2_whole env cache fk (getCacheKeyUrl fk) ct info.size
    (getCacheConfig ct) body hget

/-- Witness for C9: a 100-byte PNG requested with `Range: bytes=0-10`
against a store that has it. -/
theorem C9_image_ignores_range_witness :
    (handleFileStream
        { testEnv with
            head := fun _ => some { size := 100, contentType := some "image/png" }
            get := fun _ => some "PNGDATA" }
        emptyCache (some "bytes=0-10") "pic.png").resp.status = 200 ∧
    (handleFileStream
        { testEnv with
            head := fun _ => some { size := 100, contentType := some "image/png" }
            get := fun _ => some "PNGDATA" }
        emptyCache (some "bytes=0-10") "pic.png").trace.rangeResponderInvoked = false ∧
    (handleFileStream
        { testEnv with
            head := fun _ => some { size := 100, contentType := some "image/png" }
            get := fun _ => some "PNGDATA" }
        emptyCache (some "bytes=0-10") "pic.png").trace.rangeGetCalled = false ∧
    (handleFileStream
        { testEnv with
            head := fun _ => some { size := 100, contentType := some "image/png" }
            get := fun _ => some "PNGDATA" }
        emptyCache (some "bytes=0-10") "pic.png").trace.edgeCacheServed = false :=
  C9_image_ignores_range
    { testEnv with
        head := fun _ => some { size := 100, contentType := some "image/png" }
        get := fun _ => some "PNGDATA" }
    emptyCache "bytes=0-10" "pic.png" "image/png" "PNGDATA"
    { size := 100, contentType := some "image/png" }
    (by decide) rfl rfl rfl (by decide) (by decide) rfl

